import Mathlib

/-!
Shallow embedding of `ot_query.py` (and the mock client of `test_ot_query.py`),
a command-line utility that queries the Open Targets association REST API by
target and/or disease identifier, retries on network errors, reshapes the
response into a three-column table, and prints raw rows plus summary
statistics of the `association_score.overall` column.

Modelling conventions:
* Python floats are modelled as rationals (`ℚ`); the scores appearing in the
  repository's tests (1.00, 0.70, 0.50) are exactly representable either way.
* Python exceptions are modelled with `Except`; an uncaught exception is an
  `Except.error` result.
* Side effects are made explicit: every operation returns, along with its
  result, the list of API calls it issued (pairs of filter type and filter
  value) and the list of sleep delays it performed.
* The random jitter drawn by the retry decorator is modelled as an arbitrary
  stream `jitter : ℕ → ℚ` consumed one value per failed attempt.
* Python dicts preserve insertion order, so the two-key association dict is
  modelled as a list of key/value pairs in insertion order.
-/

set_option autoImplicit false

namespace OtQuery

/-- Python values that can appear in the raw API records: strings, ints and
floats (floats modelled as rationals). -/
inductive Value where
  | str (s : String)
  | int (n : ℤ)
  | rat (q : ℚ)
  deriving DecidableEq

/-- One raw record returned by the external API, exposing the nested fields
`target.id`, `disease.id` and `association_score.overall` of the Python dict. -/
structure RawRecord where
  target_id : Value
  disease_id : Value
  score_overall : Value
  deriving DecidableEq

/-- Coercion performed by `pd.Series(data, dtype='str')` on one element:
render the value as a Python string. -/
def coerceStr : Value → String
  | Value.str s => s
  | Value.int n => toString n
  | Value.rat q => toString q

/-- Coercion performed by `pd.Series(data, dtype='float')` on one element.
Numeric values convert; a string (numeric string literals are outside this
model) fails the conversion, which in Python raises. -/
def coerceFloat : Value → Option ℚ
  | Value.str _ => none
  | Value.int n => some (n : ℚ)
  | Value.rat q => some q

/-- Errors raised by the external API client during a network call. -/
inductive ApiError where
  | network (code : ℕ)
  deriving DecidableEq

/-- Uncaught Python exceptions that can escape `get_associations`:
a propagated API error (after retries are exhausted), the `AssertionError`
of the API-sanity check, or a pandas dtype-coercion failure. -/
inductive AppError where
  | api (e : ApiError)
  | assertion (msg : String)
  | typeCoercion
  deriving DecidableEq

/-- A single API call issued to the client: filter type paired with filter
value, as in `filter_associations(**{filter_type: filter_value})`. -/
abbrev Call := String × String

/-- The external Open Targets client capability: given a filter type, a
filter value and the index of the current attempt (the network may behave
differently on different attempts), either return the matching raw records
or raise. -/
structure OpenTargetsClient where
  filter_associations : String → String → ℕ → Except ApiError (List RawRecord)

/-- Model of `retry.api.__retry_internal` as configured by the decorator
`@retry.retry(tries=5, delay=5, backoff=1.2, jitter=(1, 3))`: run the
operation; on success return its result; on failure, if attempts remain,
sleep the current delay, multiply the delay by 1.2, add the next jitter
value, and try again; once attempts are exhausted re-raise the last error.
The argument `op` gives the behaviour of the wrapped call at each attempt
index; the returned triple is (result, API calls issued, sleep delays).
The case `tries = 0` never arises under the decorator's `tries = 5`. -/
def retryInternal {α : Type} (op : ℕ → Except ApiError α × List Call)
    (jitter : ℕ → ℚ) : ℕ → ℚ → ℕ → Except ApiError α × List Call × List ℚ
  | 0, _, i => ((op i).1, (op i).2, [])
  | 1, _, i => ((op i).1, (op i).2, [])
  | tries + 2, delay, i =>
    match op i with
    | (Except.ok a, cs) => (Except.ok a, cs, [])
    | (Except.error _, cs) =>
      match retryInternal op jitter (tries + 1) (delay * 1.2 + jitter i) (i + 1) with
      | (r, cs2, ss) => (r, cs ++ cs2, delay :: ss)

/-- Body of `query_rest_api` before the retry decorator is applied:
`list(ot_client.filter_associations(**{filter_type: filter_value})) if filter_value else None`.
A falsy filter value (absent, or the empty string) yields `None` with no
network call; otherwise the client is called once. -/
def queryBody (client : OpenTargetsClient) (filter_type : String)
    (filter_value : Option String) (attempt : ℕ) :
    Except ApiError (Option (List RawRecord)) × List Call :=
  match filter_value with
  | none => (Except.ok none, [])
  | some v =>
    if v = "" then (Except.ok none, [])
    else ((client.filter_associations filter_type v attempt).map some,
          [(filter_type, v)])

/-- Embedding of `query_rest_api`: the body wrapped by the retry decorator
with `tries = 5`, initial `delay = 5`, `backoff = 1.2` and jitter stream
`jitter`. -/
def query_rest_api (client : OpenTargetsClient) (filter_type : String)
    (filter_value : Option String) (jitter : ℕ → ℚ) :
    Except ApiError (Option (List RawRecord)) × List Call × List ℚ :=
  retryInternal (queryBody client filter_type filter_value) jitter 5 5 0

/-- The three-column pandas dataframe built by `get_associations`: columns
`target_id` (string), `disease_id` (string) and `score_overall` (float),
stored as equal-length lists, one entry per row in API return order. -/
structure Frame where
  target_id : List String
  disease_id : List String
  score_overall : List ℚ
  deriving DecidableEq

/-- Number of rows of the dataframe, as computed by `len(results)`. -/
def Frame.nrows (f : Frame) : ℕ := f.target_id.length

/-- Elementwise float coercion of the score column; `none` when some element
fails to coerce (in which case pandas raises). -/
def seqScores : List RawRecord → Option (List ℚ)
  | [] => some []
  | a :: rest =>
    match coerceFloat a.score_overall, seqScores rest with
    | some q, some qs => some (q :: qs)
    | _, _ => none

/-- Construction of the dataframe from the raw records, as in the
`pd.DataFrame({...})` call of `get_associations`: the two id columns are
string-coerced, the score column is float-coerced, rows keep API order. -/
def buildFrame (recs : List RawRecord) : Option Frame :=
  match seqScores recs with
  | none => none
  | some qs =>
    some { target_id := recs.map fun a => coerceStr a.target_id
           disease_id := recs.map fun a => coerceStr a.disease_id
           score_overall := qs }

/-- Column selection `result[filter_type + '_id']`; only ever applied with
filter type "target" or "disease". -/
def idColumn (filter_type : String) (f : Frame) : List String :=
  if filter_type = "target" then f.target_id else f.disease_id

/-- Python's `set(xs) == {v}`: the set of elements of `xs` is exactly the
singleton `{v}`, i.e. `xs` is non-empty and every element equals `v`
(see `pySetEqSingleton_iff` below for the set-theoretic reading). -/
def pySetEqSingleton (xs : List String) (v : String) : Bool :=
  !xs.isEmpty && xs.all fun x => x = v

/-- Loop body of `get_associations` after the query has returned: store
`None` for an unspecified filter, otherwise build the dataframe and run the
API-sanity assertion
`assert set(result[filter_type + '_id']) == {filter_value}`. The default
value fed to `Option.getD` is irrelevant: a non-`None` query result only
arises from a present, non-empty filter value. -/
def assocResult (filter_type : String) (filter_value : Option String) :
    Except ApiError (Option (List RawRecord)) → Except AppError (Option Frame)
  | Except.error e => Except.error (AppError.api e)
  | Except.ok none => Except.ok none
  | Except.ok (some recs) =>
    match buildFrame recs with
    | none => Except.error AppError.typeCoercion
    | some frame =>
      if pySetEqSingleton (idColumn filter_type frame) (filter_value.getD "") then
        Except.ok (some frame)
      else
        Except.error (AppError.assertion "API returned inconsistent results")

/-- One iteration of the loop in `get_associations` for a single filter
type/value pair: query with retries, then process the outcome with
`assocResult`; the calls and sleeps of the query pass through unchanged. -/
def getAssocStep (client : OpenTargetsClient) (jitter : ℕ → ℚ)
    (filter_type : String) (filter_value : Option String) :
    Except AppError (Option Frame) × List Call × List ℚ :=
  ((assocResult filter_type filter_value
      (query_rest_api client filter_type filter_value jitter).1),
   (query_rest_api client filter_type filter_value jitter).2.1,
   (query_rest_api client filter_type filter_value jitter).2.2)

/-- Embedding of `get_associations`: loop over
`(('target', target_id), ('disease', disease_id))` in that order, building
the insertion-ordered result dict; a raised exception aborts the loop (so a
failure on the target step prevents the disease query). -/
def get_associations (client : OpenTargetsClient) (jitter : ℕ → ℚ)
    (target_id disease_id : Option String) :
    Except AppError (List (String × Option Frame)) × List Call × List ℚ :=
  match (getAssocStep client jitter "target" target_id).1 with
  | Except.error e =>
    (Except.error e, (getAssocStep client jitter "target" target_id).2.1,
     (getAssocStep client jitter "target" target_id).2.2)
  | Except.ok f1 =>
    match (getAssocStep client jitter "disease" disease_id).1 with
    | Except.error e =>
      (Except.error e,
       (getAssocStep client jitter "target" target_id).2.1 ++
         (getAssocStep client jitter "disease" disease_id).2.1,
       (getAssocStep client jitter "target" target_id).2.2 ++
         (getAssocStep client jitter "disease" disease_id).2.2)
    | Except.ok f2 =>
      (Except.ok [("target", f1), ("disease", f2)],
       (getAssocStep client jitter "target" target_id).2.1 ++
         (getAssocStep client jitter "disease" disease_id).2.1,
       (getAssocStep client jitter "target" target_id).2.2 ++
         (getAssocStep client jitter "disease" disease_id).2.2)

/-- One line of program output. Numeric statistics carry an `Option ℚ`
value: `some q` is the number printed with three decimals, `none` is the
`nan` that pandas produces (for instance the sample standard deviation of a
single row). -/
inductive OutLine where
  | queryHeader (filter_type : String)
  | summaryHeader (filter_type : String)
  | noFilter
  | noResults
  | frameDump (f : Frame)
  | stat (label : String) (value : Option ℚ)
  | blank
  deriving DecidableEq

/-- Minimum of the score column, `results.score_overall.min()`; only used on
non-empty columns, where the default of `Option.getD` is irrelevant. -/
def seriesMin (xs : List ℚ) : ℚ := xs.min?.getD 0

/-- Maximum of the score column, `results.score_overall.max()`. -/
def seriesMax (xs : List ℚ) : ℚ := xs.max?.getD 0

/-- Arithmetic mean of the score column, `results.score_overall.mean()`. -/
def seriesMean (xs : List ℚ) : ℚ := xs.sum / xs.length

/-- Sample variance with N−1 denominator, the square of pandas
`Series.std()` (which uses `ddof=1`). -/
def sampleVar (xs : List ℚ) : ℚ :=
  (xs.map fun x => (x - seriesMean xs) ^ 2).sum / ((xs.length : ℚ) - 1)

/-- Rounding of `1000 * Real.sqrt v` to the nearest integer, computed
exactly on the rational `v ≥ 0`: with `v = a / b` in lowest terms,
`⌊2000 * sqrt v⌋ = ⌊sqrt (4000000 * a * b)⌋ / b` and rounding adds a half.
Theorem `claim6_theorem` characterises the result against `v` directly. -/
def sqrtMilliRound (v : ℚ) : ℕ :=
  (Nat.sqrt (4000000 * v.num.toNat * v.den) / v.den + 1) / 2

/-- Rounding of a rational to three decimal places, as in the `:.3f` format
specifier (exact half-thousandths, which never occur in this development,
round up here and to even in Python). -/
def round3 (x : ℚ) : ℚ := (⌊1000 * x + 1 / 2⌋ : ℚ) / 1000

/-- Printed value of `results.score_overall.std():.3f`: pandas `std()` with
`ddof=1` is `nan` (here `none`) on fewer than two rows, and otherwise the
square root of the sample variance, rounded to three decimals. -/
def stdStat (xs : List ℚ) : Option ℚ :=
  if xs.length ≤ 1 then none
  else some ((sqrtMilliRound (sampleVar xs) : ℚ) / 1000)

/-- Output of one iteration of the loop in `print_association_data`, after
the header: the `None` / empty / populated three-way branch, followed by the
unconditional trailing `print()`. -/
def rawCase : Option Frame → List OutLine
  | none => [OutLine.noFilter, OutLine.blank]
  | some f =>
    if f.nrows = 0 then [OutLine.noResults, OutLine.blank]
    else [OutLine.frameDump f, OutLine.blank]

/-- Embedding of `print_association_data`: one header plus three-way branch
per entry of the association dict, in dict (insertion) order. -/
def print_association_data (associations : List (String × Option Frame)) :
    List OutLine :=
  (associations.map fun p => OutLine.queryHeader p.1 :: rawCase p.2).flatten

/-- Output of one iteration of the loop in `print_summary_metrics`, after
the header: for the populated branch the four statistics, each rounded to
three decimals, followed by a `print()` that is inside the `else` branch
(so no blank line is emitted for the `None` and empty cases). -/
def summaryCase : Option Frame → List OutLine
  | none => [OutLine.noFilter]
  | some f =>
    if f.nrows = 0 then [OutLine.noResults]
    else [OutLine.stat "Minimum" (some (round3 (seriesMin f.score_overall))),
          OutLine.stat "Maximum" (some (round3 (seriesMax f.score_overall))),
          OutLine.stat "Mean" (some (round3 (seriesMean f.score_overall))),
          OutLine.stat "Standard deviation" (stdStat f.score_overall),
          OutLine.blank]

/-- Embedding of `print_summary_metrics`: one header plus three-way branch
per entry of the association dict, in dict (insertion) order. -/
def print_summary_metrics (associations : List (String × Option Frame)) :
    List OutLine :=
  (associations.map fun p => OutLine.summaryHeader p.1 :: summaryCase p.2).flatten

/-- Embedding of `main`: run the queries, then the raw dump followed by the
summary dump; an uncaught exception aborts the invocation (non-zero exit). -/
def main (client : OpenTargetsClient) (jitter : ℕ → ℚ)
    (target_id disease_id : Option String) :
    Except AppError (List OutLine) × List Call × List ℚ :=
  match get_associations client jitter target_id disease_id with
  | (Except.error e, cs, ss) => (Except.error e, cs, ss)
  | (Except.ok assoc, cs, ss) =>
    (Except.ok (print_association_data assoc ++ print_summary_metrics assoc),
     cs, ss)

/-- Mock records served by the test client for the filter `target = "valid_target"`,
from `test_ot_query.py`. -/
def mockTargetRecords : List RawRecord :=
  [⟨Value.str "valid_target", Value.str "diseaseA", Value.rat 1⟩,
   ⟨Value.str "valid_target", Value.str "diseaseB", Value.rat (7 / 10)⟩,
   ⟨Value.str "valid_target", Value.str "diseaseC", Value.rat (1 / 2)⟩]

/-- Mock records served by the test client for the filter `disease = "valid_disease"`,
from `test_ot_query.py`. -/
def mockDiseaseRecords : List RawRecord :=
  [⟨Value.str "targetA", Value.str "valid_disease", Value.rat 1⟩,
   ⟨Value.str "targetB", Value.str "valid_disease", Value.rat (7 / 10)⟩,
   ⟨Value.str "targetC", Value.str "valid_disease", Value.rat (1 / 2)⟩]

/-- The deterministic mock client `OpenTargetsClientMock` of
`test_ot_query.py`: the value `"valid_" + filter_type` returns the mock
records for that filter type, any other value returns no records. -/
def mockClient : OpenTargetsClient where
  filter_associations := fun filter_type filter_value _ =>
    if filter_value = "valid_" ++ filter_type then
      Except.ok (if filter_type = "target" then mockTargetRecords
                 else mockDiseaseRecords)
    else Except.ok []

/-- A fixed jitter stream (every draw from the interval [1, 3] comes out 2),
used to evaluate the model on concrete inputs. -/
def jitter2 : ℕ → ℚ := fun _ => 2

/-- The dataframe that `get_associations` builds from the mock target
records, matching `mock_data_df['target']` of `test_ot_query.py`. -/
def mockTargetFrame : Frame :=
  { target_id := ["valid_target", "valid_target", "valid_target"]
    disease_id := ["diseaseA", "diseaseB", "diseaseC"]
    score_overall := [1, 7 / 10, 1 / 2] }

/-- A client whose network call always raises, with an error identifying
the attempt index; used to exercise the retry policy. -/
def failClient : OpenTargetsClient where
  filter_associations := fun _ _ i => Except.error (ApiError.network i)

/-- A raw record carrying an integer target id and an integer score, used
to exercise the dtype coercions of the dataframe construction. -/
def intRecord : RawRecord :=
  ⟨Value.int 7, Value.str "d", Value.int 1⟩

/-- A client returning the integer-typed record for every query. -/
def intClient : OpenTargetsClient where
  filter_associations := fun _ _ _ => Except.ok [intRecord]

/-- Antisymmetry of the rational order, in the form expected by the
`List.min?` and `List.max?` inversion lemmas. -/
instance : Std.Antisymm (fun x1 x2 : ℚ => x1 ≤ x2) :=
  ⟨@fun _ _ h h' => le_antisymm h h'⟩

/-! ### Helper lemmas -/

/-- Python's `set(xs) == {v}` test, as modelled by `pySetEqSingleton`, agrees
with the set-theoretic statement that the set of elements of `xs` is the
singleton `{v}`. -/
theorem pySetEqSingleton_iff (xs : List String) (v : String) :
    pySetEqSingleton xs v = true ↔ xs.toFinset = {v} := by
  simp only [pySetEqSingleton, Bool.and_eq_true, Bool.not_eq_true',
    List.all_eq_true, decide_eq_true_eq]
  constructor
  · rintro ⟨hne, hall⟩
    ext a
    simp only [List.mem_toFinset, Finset.mem_singleton]
    constructor
    · exact fun ha => hall a ha
    · rintro rfl
      match xs, hne, hall with
      | x :: rest, _, hall =>
        exact (hall x (List.mem_cons_self x rest)) ▸ List.mem_cons_self x rest
  · intro hset
    have hvmem : v ∈ xs := by
      have : v ∈ xs.toFinset := by
        rw [hset]; exact Finset.mem_singleton_self v
      exact List.mem_toFinset.mp this
    refine ⟨?_, ?_⟩
    · rcases xs with _ | ⟨x, rest⟩
      · exact absurd hvmem (List.not_mem_nil v)
      · rfl
    · intro x hx
      have : x ∈ xs.toFinset := List.mem_toFinset.mpr hx
      rw [hset] at this
      exact Finset.mem_singleton.mp this

/-- Unfolding of `pySetEqSingleton` into its two list-level conjuncts. -/
theorem pySetEqSingleton_eq_true (xs : List String) (v : String) :
    pySetEqSingleton xs v = true ↔ xs ≠ [] ∧ ∀ x ∈ xs, x = v := by
  simp only [pySetEqSingleton, Bool.and_eq_true, Bool.not_eq_true',
    List.all_eq_true, decide_eq_true_eq]
  constructor
  · rintro ⟨hne, hall⟩
    refine ⟨?_, hall⟩
    rintro rfl
    simp at hne
  · rintro ⟨hne, hall⟩
    refine ⟨?_, hall⟩
    rcases xs with _ | ⟨x, rest⟩
    · exact absurd rfl hne
    · rfl

/-- A successful result of the retry loop is the successful result of the
wrapped operation at some attempt index. -/
theorem retryInternal_ok {α : Type} (op : ℕ → Except ApiError α × List Call)
    (jitter : ℕ → ℚ) (a : α) (tries : ℕ) :
    ∀ (delay : ℚ) (i : ℕ),
      (retryInternal op jitter tries delay i).1 = Except.ok a →
      ∃ j, (op j).1 = Except.ok a := by
  induction tries with
  | zero => exact fun delay i h => ⟨i, h⟩
  | succ m ih =>
    intro delay i h
    match m with
    | 0 => exact ⟨i, h⟩
    | k + 1 =>
      rw [retryInternal] at h
      rcases hop : op i with ⟨r, cs⟩
      rcases r with e | b
      · rw [hop] at h
        rcases hrec : retryInternal op jitter (k + 1) (delay * 1.2 + jitter i) (i + 1)
          with ⟨r2, cs2, ss⟩
        rw [hrec] at h
        simp only at h
        subst h
        exact ih _ _ (by rw [hrec])
      · rw [hop] at h
        simp only at h
        exact ⟨i, by rw [hop]; exact congrArg Except.ok (by injection h)⟩

/-- Every API call issued by the retry loop was issued by the wrapped
operation at some attempt index. -/
theorem retryInternal_calls {α : Type} (op : ℕ → Except ApiError α × List Call)
    (jitter : ℕ → ℚ) (tries : ℕ) :
    ∀ (delay : ℚ) (i : ℕ) (c : Call),
      c ∈ (retryInternal op jitter tries delay i).2.1 →
      ∃ j, c ∈ (op j).2 := by
  induction tries with
  | zero => exact fun delay i c h => ⟨i, h⟩
  | succ m ih =>
    intro delay i c h
    match m with
    | 0 => exact ⟨i, h⟩
    | k + 1 =>
      rw [retryInternal] at h
      rcases hop : op i with ⟨r, cs⟩
      rcases r with e | b
      · rw [hop] at h
        rcases hrec : retryInternal op jitter (k + 1) (delay * 1.2 + jitter i) (i + 1)
          with ⟨r2, cs2, ss⟩
        rw [hrec] at h
        simp only [List.mem_append] at h
        rcases h with h | h
        · exact ⟨i, by rw [hop]; exact h⟩
        · exact ih _ _ c (by rw [hrec]; exact h)
      · rw [hop] at h
        exact ⟨i, by rw [hop]; exact h⟩

/-- A non-`None` successful body result pins down the filter value: it was
present and non-empty, and the client returned exactly those records. -/
theorem queryBody_ok_some (client : OpenTargetsClient) (filter_type : String)
    (filter_value : Option String) (attempt : ℕ) (recs : List RawRecord)
    (h : (queryBody client filter_type filter_value attempt).1 =
      Except.ok (some recs)) :
    ∃ v, filter_value = some v ∧ v ≠ "" ∧
      client.filter_associations filter_type v attempt = Except.ok recs := by
  match filter_value with
  | none => simp [queryBody] at h
  | some v =>
    by_cases hv : v = ""
    · simp [queryBody, hv] at h
    · refine ⟨v, rfl, hv, ?_⟩
      simp only [queryBody, hv, if_false] at h
      rcases hc : client.filter_associations filter_type v attempt with e | rs
      · rw [hc] at h; simp [Except.map] at h
      · rw [hc] at h
        simp only [Except.map] at h
        injection h with h
        injection h with h
        rw [h]

/-- A successful `query_rest_api` result carrying records pins down the
filter value and exhibits the attempt on which the client returned them. -/
theorem query_rest_api_ok_some (client : OpenTargetsClient)
    (filter_type : String) (filter_value : Option String) (jitter : ℕ → ℚ)
    (recs : List RawRecord)
    (h : (query_rest_api client filter_type filter_value jitter).1 =
      Except.ok (some recs)) :
    ∃ v j, filter_value = some v ∧ v ≠ "" ∧
      client.filter_associations filter_type v j = Except.ok recs := by
  rcases retryInternal_ok (queryBody client filter_type filter_value) jitter
    (some recs) 5 5 0 h with ⟨j, hj⟩
  rcases queryBody_ok_some client filter_type filter_value j recs hj with
    ⟨v, hv, hne, hc⟩
  exact ⟨v, j, hv, hne, hc⟩

/-- A successful elementwise score coercion produces exactly the per-record
coercions, in order. -/
theorem seqScores_eq_some (recs : List RawRecord) :
    ∀ qs, seqScores recs = some qs →
      qs.map some = recs.map fun a => coerceFloat a.score_overall := by
  induction recs with
  | nil =>
    intro qs h
    rw [seqScores] at h
    injection h with h
    subst h
    simp
  | cons a rest ih =>
    intro qs h
    rw [seqScores] at h
    rcases hc : coerceFloat a.score_overall with _ | q
    · rw [hc] at h; simp at h
    · rw [hc] at h
      rcases hr : seqScores rest with _ | qs'
      · rw [hr] at h; simp at h
      · rw [hr] at h
        injection h with h
        subst h
        simp only [List.map_cons, hc, List.map]
        rw [ih qs' hr]

/-- Characterisation of a successfully built dataframe: the id columns are
the string-coerced record fields and the score column is the float-coerced
record field, rows in API order. -/
theorem buildFrame_eq_some (recs : List RawRecord) (f : Frame)
    (h : buildFrame recs = some f) :
    f.target_id = (recs.map fun a => coerceStr a.target_id) ∧
    f.disease_id = (recs.map fun a => coerceStr a.disease_id) ∧
    f.score_overall.map some = (recs.map fun a => coerceFloat a.score_overall) := by
  rcases hs : seqScores recs with _ | qs
  · rw [buildFrame, hs] at h; simp at h
  · rw [buildFrame, hs] at h
    injection h with h
    subst h
    exact ⟨rfl, rfl, seqScores_eq_some recs qs hs⟩

/-- A populated frame stored by one loop iteration pins down the filter
value, exhibits the client records it was built from, and certifies that
the assertion on the id column passed. -/
theorem getAssocStep_ok_some (client : OpenTargetsClient) (jitter : ℕ → ℚ)
    (filter_type : String) (filter_value : Option String) (f : Frame)
    (h : (getAssocStep client jitter filter_type filter_value).1 =
      Except.ok (some f)) :
    ∃ v recs j, filter_value = some v ∧ v ≠ "" ∧
      client.filter_associations filter_type v j = Except.ok recs ∧
      buildFrame recs = some f ∧
      pySetEqSingleton (idColumn filter_type f) v = true := by
  rcases hq : (query_rest_api client filter_type filter_value jitter).1
    with e | ob
  · rw [getAssocStep] at h
    simp only [hq, assocResult] at h
    exact Except.noConfusion h
  · rcases ob with _ | recs
    · rw [getAssocStep] at h
      simp only [hq, assocResult] at h
      exact absurd h (by simp)
    · rcases query_rest_api_ok_some client filter_type filter_value jitter recs hq
        with ⟨v, j, hv, hne, hc⟩
      refine ⟨v, recs, j, hv, hne, hc, ?_⟩
      rw [getAssocStep] at h
      simp only [hq, assocResult] at h
      rcases hb : buildFrame recs with _ | frame
      · rw [hb] at h; simp at h
      · rw [hb] at h
        simp only at h
        by_cases hset : pySetEqSingleton (idColumn filter_type frame)
            (filter_value.getD "") = true
        · rw [if_pos hset] at h
          injection h with h
          injection h with h
          subst h
          rw [hv] at hset
          exact ⟨rfl, hset⟩
        · rw [if_neg hset] at h
          simp at h

/-- A `None` result stored by one loop iteration means the filter value was
falsy: absent or the empty string. -/
theorem getAssocStep_ok_none (client : OpenTargetsClient) (jitter : ℕ → ℚ)
    (filter_type : String) (filter_value : Option String)
    (h : (getAssocStep client jitter filter_type filter_value).1 =
      Except.ok none) :
    filter_value = none ∨ filter_value = some "" := by
  rcases filter_value with _ | v
  · exact Or.inl rfl
  · by_cases hv : v = ""
    · exact Or.inr (by rw [hv])
    · exfalso
      rcases hq : (query_rest_api client filter_type (some v) jitter).1
        with e | ob
      · rw [getAssocStep] at h
        simp only [hq, assocResult] at h
        exact Except.noConfusion h
      · rcases ob with _ | recs
        · -- a present, non-empty filter value never produces a `None` query result
          rcases retryInternal_ok (queryBody client filter_type (some v)) jitter
            none 5 5 0 hq with ⟨j, hj⟩
          simp only [queryBody, hv, if_false] at hj
          rcases hc : client.filter_associations filter_type v j with e | rs
          · rw [hc] at hj; simp [Except.map] at hj
          · rw [hc] at hj; simp [Except.map] at hj
        · rw [getAssocStep] at h
          simp only [hq, assocResult] at h
          rcases hb : buildFrame recs with _ | frame
          · rw [hb] at h; simp at h
          · rw [hb] at h
            simp only at h
            by_cases hset : pySetEqSingleton (idColumn filter_type frame)
                ((some v).getD "") = true
            · rw [if_pos hset] at h; simp at h
            · rw [if_neg hset] at h; simp at h

/-- A successful run of `get_associations` produced the insertion-ordered
two-key dict, whose entries are the results of the two loop iterations. -/
theorem get_associations_ok (client : OpenTargetsClient) (jitter : ℕ → ℚ)
    (target_id disease_id : Option String)
    (assoc : List (String × Option Frame))
    (h : (get_associations client jitter target_id disease_id).1 =
      Except.ok assoc) :
    ∃ r1 r2, assoc = [("target", r1), ("disease", r2)] ∧
      (getAssocStep client jitter "target" target_id).1 = Except.ok r1 ∧
      (getAssocStep client jitter "disease" disease_id).1 = Except.ok r2 := by
  rcases h1 : (getAssocStep client jitter "target" target_id).1 with e | f1
  · rw [get_associations] at h
    simp only [h1] at h
    exact Except.noConfusion h
  · rcases h2 : (getAssocStep client jitter "disease" disease_id).1 with e | f2
    · rw [get_associations] at h
      simp only [h1, h2] at h
      exact Except.noConfusion h
    · rw [get_associations] at h
      simp only [h1, h2] at h
      injection h with h
      exact ⟨f1, f2, h.symm, rfl, rfl⟩

/-- Every API call issued by `query_rest_api` carries the filter type it was
invoked with as the filter name. -/
theorem query_rest_api_calls_label (client : OpenTargetsClient)
    (filter_type : String) (filter_value : Option String) (jitter : ℕ → ℚ)
    (c : Call)
    (h : c ∈ (query_rest_api client filter_type filter_value jitter).2.1) :
    c.1 = filter_type := by
  rcases retryInternal_calls (queryBody client filter_type filter_value)
    jitter 5 5 0 c h with ⟨j, hj⟩
  rcases filter_value with _ | v
  · simp [queryBody] at hj
  · by_cases hv : v = ""
    · simp [queryBody, hv] at hj
    · simp only [queryBody, hv, if_false, List.mem_singleton] at hj
      rw [hj]

/-! ### Claim theorems -/

/-- Claim C1 (code bug): contrary to the claim (and to the repository's own
docstring and test suite), a specified filter value whose query returns zero
records does not yield an empty stored table: the API-consistency assertion
is executed unconditionally, `set()` of the empty id column never equals the
singleton of the filter value, and `get_associations` raises
`AssertionError`. This theorem evaluates the model at the failing input
used by `test_get_associations`: a filter value matching no records. -/
theorem claim1_code_bug :
    get_associations mockClient jitter2 (some "nonexistent_target") none =
      (Except.error (AppError.assertion "API returned inconsistent results"),
       [("target", "nonexistent_target")], []) := by
  rfl

/-- Claim C2 (counterexample): with neither identifier supplied, the program
does not report a usage error and does not terminate with a non-zero
status: `main` completes normally (exit status 0), printing the two
"no filter was specified" sections, with no network activity. There is no
at-least-one-identifier check anywhere in `ot_query.py`. -/
theorem claim2_counterexample :
    main mockClient jitter2 none none =
      (Except.ok [OutLine.queryHeader "target", OutLine.noFilter, OutLine.blank,
        OutLine.queryHeader "disease", OutLine.noFilter, OutLine.blank,
        OutLine.summaryHeader "target", OutLine.noFilter,
        OutLine.summaryHeader "disease", OutLine.noFilter], [], []) := by
  rfl

/-- Claim C2 (amended): if neither a target identifier nor a disease
identifier is supplied, the program performs no network activity and
completes normally, reporting "no filter was specified" for both kinds in
both output passes — for every client and every jitter stream. -/
theorem claim2_theorem (client : OpenTargetsClient) (jitter : ℕ → ℚ) :
    main client jitter none none =
      (Except.ok [OutLine.queryHeader "target", OutLine.noFilter, OutLine.blank,
        OutLine.queryHeader "disease", OutLine.noFilter, OutLine.blank,
        OutLine.summaryHeader "target", OutLine.noFilter,
        OutLine.summaryHeader "disease", OutLine.noFilter], [], []) := by
  rfl

/-- Claim C3 (counterexample): the empty string is a non-null filter value
for which `query_rest_api` issues no query at all and returns `None` rather
than a list, because the code tests Python truthiness, not nullness. -/
theorem claim3_counterexample :
    query_rest_api mockClient "target" (some "") jitter2 =
      (Except.ok none, [], []) ∧
    (some "" : Option String) ≠ none := by
  exact ⟨rfl, by simp⟩

/-- Claim C3 (amended): `query_rest_api` returns `None` immediately with no
network call when the filter value is null or empty; for every non-empty
filter value on which the client's first attempt succeeds, it issues
exactly one filtered query and returns the resulting records as a list
(possibly empty), with no sleeps. -/
theorem claim3_theorem (client : OpenTargetsClient) (jitter : ℕ → ℚ)
    (filter_type : String) :
    query_rest_api client filter_type none jitter = (Except.ok none, [], []) ∧
    query_rest_api client filter_type (some "") jitter =
      (Except.ok none, [], []) ∧
    ∀ (v : String) (recs : List RawRecord), v ≠ "" →
      client.filter_associations filter_type v 0 = Except.ok recs →
      query_rest_api client filter_type (some v) jitter =
        (Except.ok (some recs), [(filter_type, v)], []) := by
  refine ⟨rfl, rfl, ?_⟩
  intro v recs hv hc
  rw [query_rest_api, retryInternal]
  simp [queryBody, hv, hc, Except.map]

/-- Claim C3 (witness): the amended claim evaluated on the mock client at
the valid target identifier: one call, records returned as a list. -/
theorem claim3_witness :
    query_rest_api mockClient "target" (some "valid_target") jitter2 =
      (Except.ok (some mockTargetRecords), [("target", "valid_target")], []) :=
  (claim3_theorem mockClient jitter2 "target").2.2 "valid_target"
    mockTargetRecords (by simp) (by rfl)

/-- Claim C4 (code bug): contrary to the claim (and to the repository's own
test, which asserts the two-key result for all nine combinations of
unspecified, nonexistent and valid values), `get_associations` does not
always return the two-key map: when a specified filter value matches no
records it raises `AssertionError` instead of returning. This theorem
evaluates the model at such a failing input. -/
theorem claim4_code_bug :
    (get_associations mockClient jitter2 none (some "nonexistent_disease")).1 =
      Except.error (AppError.assertion "API returned inconsistent results") := by
  rfl

/-- Claim C9: a falsy filter value — the empty string just as much as null —
makes `query_rest_api` return `None` with no API call and no sleep, and
`get_associations` consequently stores `None` for that kind: in any
completed run the target entry of the dict is `None`, and every API call of
the whole run belongs to the disease query. -/
theorem claim9_theorem (client : OpenTargetsClient) (jitter : ℕ → ℚ)
    (filter_type : String) (disease_id : Option String) :
    query_rest_api client filter_type (some "") jitter =
      (Except.ok none, [], []) ∧
    (∀ assoc, (get_associations client jitter (some "") disease_id).1 =
        Except.ok assoc →
      ∃ rd, assoc = [("target", none), ("disease", rd)]) ∧
    ∀ c ∈ (get_associations client jitter (some "") disease_id).2.1,
      c.1 = "disease" := by
  refine ⟨rfl, ?_, ?_⟩
  · intro assoc h
    rcases get_associations_ok client jitter (some "") disease_id assoc h with
      ⟨r1, r2, hassoc, h1, h2⟩
    have hr1 : (getAssocStep client jitter "target" (some "")).1 =
        Except.ok none := rfl
    rw [hr1] at h1
    injection h1 with h1
    rw [hassoc, ← h1]
    exact ⟨r2, rfl⟩
  · intro c hc
    have hstep1 : getAssocStep client jitter "target" (some "") =
        (Except.ok none, [], []) := rfl
    rcases h2 : (getAssocStep client jitter "disease" disease_id).1 with e | f2
    · rw [get_associations] at hc
      simp only [hstep1, h2, List.nil_append] at hc
      exact query_rest_api_calls_label client "disease" disease_id jitter c hc
    · rw [get_associations] at hc
      simp only [hstep1, h2, List.nil_append] at hc
      exact query_rest_api_calls_label client "disease" disease_id jitter c hc

/-- Claim C9 (witness): the hypothesis-bearing part of `claim9_theorem`
discharged on the mock client with no disease identifier. -/
theorem claim9_witness :
    ∃ rd, ([(("target" : String), (none : Option Frame)), ("disease", none)]) =
      [("target", none), ("disease", rd)] :=
  (claim9_theorem mockClient jitter2 "target" none).2.1
    [("target", none), ("disease", none)] (by rfl)

/-- Correctness of the exact square-root rounding: `sqrtMilliRound v` is
the rounding of `1000 * sqrt v` to the nearest integer, characterised
without square roots: when positive, its doubled value less one has square
at most `4000000 * v`, and its doubled value plus one has square exceeding
`4000000 * v`. -/
theorem sqrtMilliRound_bounds (v : ℚ) (hv : 0 ≤ v) :
    ((sqrtMilliRound v : ℚ) ≠ 0 →
      (2 * (sqrtMilliRound v : ℚ) - 1) ^ 2 ≤ 4000000 * v) ∧
    4000000 * v < (2 * (sqrtMilliRound v : ℚ) + 1) ^ 2 := by
  have hb : 0 < v.den := v.pos
  have hnum : ((v.num.toNat : ℚ)) = ((v.num : ℚ)) := by
    exact_mod_cast congrArg (fun z : ℤ => (z : ℚ))
      (Int.toNat_of_nonneg (Rat.num_nonneg.mpr hv))
  have hveq : v = ((v.num.toNat : ℚ)) / ((v.den : ℚ)) := by
    rw [hnum]
    exact (Rat.num_div_den v).symm
  set a : ℕ := v.num.toNat with ha
  set b : ℕ := v.den with hbdef
  set N : ℕ := 4000000 * a * b with hN
  set s : ℕ := Nat.sqrt N with hs
  set t : ℕ := s / b with ht
  set m : ℕ := (t + 1) / 2 with hmdef
  have hm : sqrtMilliRound v = m := rfl
  have hbQ : (0 : ℚ) < (b : ℚ) := by exact_mod_cast hb
  have hF1 : s * s ≤ N := Nat.sqrt_le N
  have hF2 : N < (s + 1) * (s + 1) := Nat.lt_succ_sqrt N
  have hF3 : t * b ≤ s := Nat.div_mul_le_self s b
  have hF4 : s < (t + 1) * b := by
    have hdm := Nat.div_add_mod s b
    have hmod : s % b < b := Nat.mod_lt s hb
    calc s = b * (s / b) + s % b := hdm.symm
    _ < b * (s / b) + b := by omega
    _ = (s / b + 1) * b := by ring
  have hF5 : m * 2 ≤ t + 1 := Nat.div_mul_le_self (t + 1) 2
  have hF6 : t + 1 < (m + 1) * 2 := by
    have hdm := Nat.div_add_mod (t + 1) 2
    have hmod : (t + 1) % 2 < 2 := Nat.mod_lt (t + 1) (by omega)
    calc t + 1 = 2 * ((t + 1) / 2) + (t + 1) % 2 := hdm.symm
    _ < 2 * ((t + 1) / 2) + 2 := by omega
    _ = ((t + 1) / 2 + 1) * 2 := by ring
  have hv4 : 4000000 * v = (N : ℚ) / (b : ℚ) ^ 2 := by
    rw [hN]
    rw [hveq]
    push_cast
    field_simp
    ring
  rw [hm]
  constructor
  · intro hm0
    have hm1 : 1 ≤ m := Nat.one_le_iff_ne_zero.mpr (by exact_mod_cast hm0)
    have hm1Q : (1 : ℚ) ≤ (m : ℚ) := by exact_mod_cast hm1
    have c3 : (t : ℚ) * (b : ℚ) ≤ (s : ℚ) := by exact_mod_cast hF3
    have c1 : (s : ℚ) * (s : ℚ) ≤ (N : ℚ) := by exact_mod_cast hF1
    have c5 : 2 * (m : ℚ) ≤ (t : ℚ) + 1 := by
      have hc : ((m * 2 : ℕ) : ℚ) ≤ ((t + 1 : ℕ) : ℚ) := Nat.cast_le.mpr hF5
      push_cast at hc
      linarith
    have h1 : 2 * (m : ℚ) - 1 ≤ (t : ℚ) := by linarith
    have h0 : (0 : ℚ) ≤ 2 * (m : ℚ) - 1 := by linarith
    have h2 : (2 * (m : ℚ) - 1) * (b : ℚ) ≤ (t : ℚ) * (b : ℚ) :=
      mul_le_mul_of_nonneg_right h1 (le_of_lt hbQ)
    have h3 : (2 * (m : ℚ) - 1) * (b : ℚ) ≤ (s : ℚ) := le_trans h2 c3
    have h4 : (0 : ℚ) ≤ (2 * (m : ℚ) - 1) * (b : ℚ) :=
      mul_nonneg h0 (le_of_lt hbQ)
    have h5 : ((2 * (m : ℚ) - 1) * (b : ℚ)) ^ 2 ≤ (N : ℚ) := by
      nlinarith
    rw [hv4, le_div_iff₀ (by positivity)]
    have hr : (2 * (m : ℚ) - 1) ^ 2 * (b : ℚ) ^ 2 =
        ((2 * (m : ℚ) - 1) * (b : ℚ)) ^ 2 := by ring
    rw [hr]
    exact h5
  · have c2 : (N : ℚ) < ((s : ℚ) + 1) * ((s : ℚ) + 1) := by exact_mod_cast hF2
    have c4 : (s : ℚ) + 1 ≤ ((t : ℚ) + 1) * (b : ℚ) := by
      have hc : ((s + 1 : ℕ) : ℚ) ≤ (((t + 1) * b : ℕ) : ℚ) := Nat.cast_le.mpr hF4
      push_cast at hc
      linarith
    have c6 : (t : ℚ) + 1 ≤ 2 * (m : ℚ) + 1 := by
      have hc : ((t + 1 : ℕ) : ℚ) ≤ ((m * 2 + 1 : ℕ) : ℚ) := Nat.cast_le.mpr (by omega)
      push_cast at hc
      linarith
    have h7 : (s : ℚ) + 1 ≤ (2 * (m : ℚ) + 1) * (b : ℚ) := by
      calc (s : ℚ) + 1 ≤ ((t : ℚ) + 1) * (b : ℚ) := c4
      _ ≤ (2 * (m : ℚ) + 1) * (b : ℚ) :=
        mul_le_mul_of_nonneg_right c6 (le_of_lt hbQ)
    have h8 : (N : ℚ) < ((2 * (m : ℚ) + 1) * (b : ℚ)) ^ 2 := by
      nlinarith
    rw [hv4, div_lt_iff₀ (by positivity)]
    have hr : (2 * (m : ℚ) + 1) ^ 2 * (b : ℚ) ^ 2 =
        ((2 * (m : ℚ) + 1) * (b : ℚ)) ^ 2 := by ring
    rw [hr]
    exact h8

/-- Claim C5: whenever `get_associations` completes and stores a populated
table for a kind, that table was built from the records the client returned
for that kind's query: the three columns are the string-coerced target ids,
the string-coerced disease ids and the float-coerced scores, one row per
record in API return order, and every entry of the column corresponding to
the queried kind equals the exact filter value supplied. -/
theorem claim5_theorem (client : OpenTargetsClient) (jitter : ℕ → ℚ)
    (target_id disease_id : Option String)
    (assoc : List (String × Option Frame))
    (h : (get_associations client jitter target_id disease_id).1 =
      Except.ok assoc)
    (filter_type : String) (f : Frame)
    (hmem : (filter_type, some f) ∈ assoc) (hpop : f.nrows ≠ 0) :
    ∃ (v : String) (recs : List RawRecord) (j : ℕ),
      (if filter_type = "target" then target_id else disease_id) = some v ∧
      client.filter_associations filter_type v j = Except.ok recs ∧
      f.target_id = (recs.map fun a => coerceStr a.target_id) ∧
      f.disease_id = (recs.map fun a => coerceStr a.disease_id) ∧
      f.score_overall.map some =
        (recs.map fun a => coerceFloat a.score_overall) ∧
      ∀ x ∈ idColumn filter_type f, x = v := by
  rcases get_associations_ok client jitter target_id disease_id assoc h with
    ⟨r1, r2, hassoc, h1, h2⟩
  subst hassoc
  simp only [List.mem_cons, List.not_mem_nil, or_false, Prod.mk.injEq] at hmem
  rcases hmem with ⟨hft, hr⟩ | ⟨hft, hr⟩
  · subst hft
    rw [← hr] at h1
    rcases getAssocStep_ok_some client jitter "target" target_id f h1 with
      ⟨v, recs, j, hv, hne, hc, hb, hset⟩
    rcases buildFrame_eq_some recs f hb with ⟨hcol1, hcol2, hcol3⟩
    refine ⟨v, recs, j, ?_, hc, hcol1, hcol2, hcol3, ?_⟩
    · rw [if_pos rfl]; exact hv
    · exact ((pySetEqSingleton_eq_true _ _).mp hset).2
  · subst hft
    rw [← hr] at h2
    rcases getAssocStep_ok_some client jitter "disease" disease_id f h2 with
      ⟨v, recs, j, hv, hne, hc, hb, hset⟩
    rcases buildFrame_eq_some recs f hb with ⟨hcol1, hcol2, hcol3⟩
    refine ⟨v, recs, j, ?_, hc, hcol1, hcol2, hcol3, ?_⟩
    · rw [if_neg (by decide)]; exact hv
    · exact ((pySetEqSingleton_eq_true _ _).mp hset).2

/-- Claim C5 (witness): the populated-table invariant discharged on the
mock client with the valid target identifier: the stored table is exactly
the coerced mock records and its target column is constantly the filter
value. -/
theorem claim5_witness :
    ∃ (v : String) (recs : List RawRecord) (j : ℕ),
      (if "target" = "target" then some "valid_target"
       else (none : Option String)) = some v ∧
      mockClient.filter_associations "target" v j = Except.ok recs ∧
      mockTargetFrame.target_id = (recs.map fun a => coerceStr a.target_id) ∧
      mockTargetFrame.disease_id =
        (recs.map fun a => coerceStr a.disease_id) ∧
      mockTargetFrame.score_overall.map some =
        (recs.map fun a => coerceFloat a.score_overall) ∧
      ∀ x ∈ idColumn "target" mockTargetFrame, x = v :=
  claim5_theorem mockClient jitter2 (some "valid_target") none
    [("target", some mockTargetFrame), ("disease", none)] (by rfl)
    "target" mockTargetFrame (by simp) (by decide)

/-- Claim C6 (counterexample): a populated result with a single row does
not get a rounded sample standard deviation: with one observation the N−1
denominator is zero, pandas `std()` is `nan`, and the summary pass prints
the `nan` marker (modelled as `none`) on the standard-deviation line. -/
theorem claim6_counterexample :
    OutLine.stat "Standard deviation" none ∈
      print_summary_metrics
        [("target", some ⟨["gene1"], ["diseaseA"], [3 / 4]⟩)] := by
  have hstd : stdStat [3 / 4] = none := by rw [stdStat, if_pos (by decide)]
  have hsum : summaryCase (some ⟨["gene1"], ["diseaseA"], [3 / 4]⟩) =
      [OutLine.stat "Minimum" (some (round3 (seriesMin [3 / 4]))),
       OutLine.stat "Maximum" (some (round3 (seriesMax [3 / 4]))),
       OutLine.stat "Mean" (some (round3 (seriesMean [3 / 4]))),
       OutLine.stat "Standard deviation" none,
       OutLine.blank] := by
    rw [summaryCase, if_neg (by decide), hstd]
  rw [print_summary_metrics]
  simp only [List.map, List.flatten, List.append_nil, hsum]
  simp

/-- Claim C6 (amended): for a populated result with at least two rows (so
that the sample standard deviation is a number rather than pandas' `nan`),
the summary pass emits exactly the minimum, maximum, arithmetic mean and
sample standard deviation (N−1 denominator) of `score_overall`, each
rounded to three decimal places: the emitted minimum and maximum round a
least and a greatest element of the column, the emitted mean rounds the
value whose product with the row count is the column sum, and the emitted
standard deviation is `m / 1000` where `m` is the correct rounding of
`1000` times the square root of the sample variance. In particular, for the
three scores 1.00, 0.70, 0.50 the emitted values are 0.500, 1.000, 0.733
and 0.252. -/
theorem claim6_theorem :
    (∀ (filter_type : String) (f : Frame), f.nrows ≠ 0 →
      2 ≤ f.score_overall.length →
      ∃ (mn mx : ℚ) (m : ℕ),
        print_summary_metrics [(filter_type, some f)] =
          [OutLine.summaryHeader filter_type,
           OutLine.stat "Minimum" (some (round3 mn)),
           OutLine.stat "Maximum" (some (round3 mx)),
           OutLine.stat "Mean" (some (round3 (seriesMean f.score_overall))),
           OutLine.stat "Standard deviation" (some ((m : ℚ) / 1000)),
           OutLine.blank] ∧
        mn ∈ f.score_overall ∧ (∀ x ∈ f.score_overall, mn ≤ x) ∧
        mx ∈ f.score_overall ∧ (∀ x ∈ f.score_overall, x ≤ mx) ∧
        seriesMean f.score_overall * (f.score_overall.length : ℚ) =
          f.score_overall.sum ∧
        sampleVar f.score_overall * ((f.score_overall.length : ℚ) - 1) =
          (f.score_overall.map fun x =>
            (x - seriesMean f.score_overall) ^ 2).sum ∧
        ((m : ℚ) ≠ 0 →
          (2 * (m : ℚ) - 1) ^ 2 ≤ 4000000 * sampleVar f.score_overall) ∧
        4000000 * sampleVar f.score_overall < (2 * (m : ℚ) + 1) ^ 2) ∧
    print_summary_metrics [("target", some mockTargetFrame)] =
      [OutLine.summaryHeader "target",
       OutLine.stat "Minimum" (some (1 / 2)),
       OutLine.stat "Maximum" (some 1),
       OutLine.stat "Mean" (some (733 / 1000)),
       OutLine.stat "Standard deviation" (some (252 / 1000)),
       OutLine.blank] := by
  constructor
  · intro filter_type f hpop h2
    have hlenQ : (2 : ℚ) ≤ (f.score_overall.length : ℚ) := by exact_mod_cast h2
    rcases hmn : f.score_overall.min? with _ | mn
    · rw [List.min?_eq_none_iff] at hmn
      rw [hmn] at h2
      simp at h2
    rcases hmx : f.score_overall.max? with _ | mx
    · rw [List.max?_eq_none_iff] at hmx
      rw [hmx] at h2
      simp at h2
    have hmnP := hmn
    have hmxP := hmx
    rw [List.min?_eq_some_iff (fun a => le_refl a) (fun a b => min_choice a b)
      (fun a b c => le_min_iff)] at hmnP
    rw [List.max?_eq_some_iff (fun a => le_refl a) (fun a b => max_choice a b)
      (fun a b c => max_le_iff)] at hmxP
    have hvar : 0 ≤ sampleVar f.score_overall := by
      rw [sampleVar]
      apply div_nonneg
      · apply List.sum_nonneg
        intro x hx
        simp only [List.mem_map] at hx
        rcases hx with ⟨y, hy, rfl⟩
        positivity
      · linarith
    rcases sqrtMilliRound_bounds (sampleVar f.score_overall) hvar with
      ⟨hlo, hhi⟩
    refine ⟨mn, mx, sqrtMilliRound (sampleVar f.score_overall),
      ?_, hmnP.1, hmnP.2, hmxP.1, hmxP.2, ?_, ?_, hlo, hhi⟩
    · have hstd : stdStat f.score_overall =
          some ((sqrtMilliRound (sampleVar f.score_overall) : ℚ) / 1000) := by
        rw [stdStat, if_neg (by omega)]
      have hsmn : seriesMin f.score_overall = mn := by
        rw [seriesMin, hmn]
        rfl
      have hsmx : seriesMax f.score_overall = mx := by
        rw [seriesMax, hmx]
        rfl
      simp [print_summary_metrics, summaryCase, hpop, hstd, hsmn, hsmx]
    · exact div_mul_cancel₀ _ (by linarith)
    · exact div_mul_cancel₀ _ (by linarith)
  · have hxs : mockTargetFrame.score_overall = [1, 7 / 10, 1 / 2] := rfl
    have hmin : seriesMin mockTargetFrame.score_overall = 1 / 2 := by
      rw [seriesMin, hxs]
      norm_num [List.min?, min_def]
    have hmax : seriesMax mockTargetFrame.score_overall = 1 := by
      rw [seriesMax, hxs]
      norm_num [List.max?, max_def]
    have hmean : seriesMean mockTargetFrame.score_overall = 11 / 15 := by
      rw [seriesMean, hxs]
      norm_num
    have hvar : sampleVar mockTargetFrame.score_overall = 19 / 300 := by
      rw [sampleVar]
      simp only [hmean]
      simp only [hxs]
      norm_num
    have hnum : ((19 : ℚ) / 300).num = 19 := by norm_num
    have hden : ((19 : ℚ) / 300).den = 300 := by norm_num
    have hsqrt : Nat.sqrt 22800000000 = 150996 := by
      have hs1 : 150996 ≤ Nat.sqrt 22800000000 :=
        Nat.le_sqrt.mpr (by norm_num)
      have hs2 : Nat.sqrt 22800000000 < 150997 :=
        Nat.sqrt_lt.mpr (by norm_num)
      omega
    have hsmr : sqrtMilliRound ((19 : ℚ) / 300) = 252 := by
      rw [sqrtMilliRound, hnum, hden]
      have harg : 4000000 * (19 : ℤ).toNat * 300 = 22800000000 := by decide
      rw [harg, hsqrt]
    have hstd : stdStat mockTargetFrame.score_overall =
        some (252 / 1000) := by
      rw [stdStat, if_neg (by decide), hvar, hsmr]
      norm_num
    have hr1 : round3 (1 / 2 : ℚ) = 1 / 2 := by rw [round3]; norm_num
    have hr2 : round3 (1 : ℚ) = 1 := by rw [round3]; norm_num
    have hr3 : round3 (11 / 15 : ℚ) = 733 / 1000 := by rw [round3]; norm_num
    have hsummary : summaryCase (some mockTargetFrame) =
        [OutLine.stat "Minimum"
           (some (round3 (seriesMin mockTargetFrame.score_overall))),
         OutLine.stat "Maximum"
           (some (round3 (seriesMax mockTargetFrame.score_overall))),
         OutLine.stat "Mean"
           (some (round3 (seriesMean mockTargetFrame.score_overall))),
         OutLine.stat "Standard deviation"
           (stdStat mockTargetFrame.score_overall),
         OutLine.blank] := by
      rw [summaryCase, if_neg (by decide)]
    rw [print_summary_metrics]
    simp only [List.map, List.flatten, List.append_nil]
    rw [hsummary, hmin, hmax, hmean, hstd, hr1, hr2, hr3]

/-- Claim C6 (witness): the general statistics statement discharged on the
dataframe built from the mock records with scores 1.00, 0.70 and 0.50. -/
theorem claim6_witness :
    ∃ (mn mx : ℚ) (m : ℕ),
      print_summary_metrics [("target", some mockTargetFrame)] =
        [OutLine.summaryHeader "target",
         OutLine.stat "Minimum" (some (round3 mn)),
         OutLine.stat "Maximum" (some (round3 mx)),
         OutLine.stat "Mean"
           (some (round3 (seriesMean mockTargetFrame.score_overall))),
         OutLine.stat "Standard deviation" (some ((m : ℚ) / 1000)),
         OutLine.blank] ∧
      mn ∈ mockTargetFrame.score_overall ∧
      (∀ x ∈ mockTargetFrame.score_overall, mn ≤ x) ∧
      mx ∈ mockTargetFrame.score_overall ∧
      (∀ x ∈ mockTargetFrame.score_overall, x ≤ mx) ∧
      seriesMean mockTargetFrame.score_overall *
          (mockTargetFrame.score_overall.length : ℚ) =
        mockTargetFrame.score_overall.sum ∧
      sampleVar mockTargetFrame.score_overall *
          ((mockTargetFrame.score_overall.length : ℚ) - 1) =
        (mockTargetFrame.score_overall.map fun x =>
          (x - seriesMean mockTargetFrame.score_overall) ^ 2).sum ∧
      ((m : ℚ) ≠ 0 →
        (2 * (m : ℚ) - 1) ^ 2 ≤
          4000000 * sampleVar mockTargetFrame.score_overall) ∧
      4000000 * sampleVar mockTargetFrame.score_overall <
        (2 * (m : ℚ) + 1) ^ 2 :=
  claim6_theorem.1 "target" mockTargetFrame (by decide) (by decide)

/-- Claim C7: both reporting passes process the two kinds in the fixed
order target then disease, the output per kind is determined exactly by the
three-way result state (`None` emits the no-filter message, empty emits the
no-results message, populated emits the table in the raw pass and the four
statistics in the summary pass), and no statistics line is ever emitted for
an unspecified or empty result. -/
theorem claim7_theorem (client : OpenTargetsClient) (jitter : ℕ → ℚ)
    (target_id disease_id : Option String)
    (assoc : List (String × Option Frame))
    (h : (get_associations client jitter target_id disease_id).1 =
      Except.ok assoc) :
    ∃ r1 r2, assoc = [("target", r1), ("disease", r2)] ∧
      print_association_data assoc =
        (OutLine.queryHeader "target" :: rawCase r1) ++
          (OutLine.queryHeader "disease" :: rawCase r2) ∧
      print_summary_metrics assoc =
        (OutLine.summaryHeader "target" :: summaryCase r1) ++
          (OutLine.summaryHeader "disease" :: summaryCase r2) ∧
      (∀ r : Option Frame,
        (r = none → rawCase r = [OutLine.noFilter, OutLine.blank] ∧
          summaryCase r = [OutLine.noFilter]) ∧
        (∀ g : Frame, r = some g → g.nrows = 0 →
          rawCase r = [OutLine.noResults, OutLine.blank] ∧
          summaryCase r = [OutLine.noResults]) ∧
        (∀ g : Frame, r = some g → g.nrows ≠ 0 →
          rawCase r = [OutLine.frameDump g, OutLine.blank] ∧
          summaryCase r =
            [OutLine.stat "Minimum"
               (some (round3 (seriesMin g.score_overall))),
             OutLine.stat "Maximum"
               (some (round3 (seriesMax g.score_overall))),
             OutLine.stat "Mean"
               (some (round3 (seriesMean g.score_overall))),
             OutLine.stat "Standard deviation" (stdStat g.score_overall),
             OutLine.blank]) ∧
        (∀ (label : String) (q : Option ℚ),
          OutLine.stat label q ∈ summaryCase r →
          ∃ g : Frame, r = some g ∧ g.nrows ≠ 0)) := by
  rcases get_associations_ok client jitter target_id disease_id assoc h with
    ⟨r1, r2, hassoc, h1, h2⟩
  subst hassoc
  refine ⟨r1, r2, rfl, ?_, ?_, ?_⟩
  · simp [print_association_data]
  · simp [print_summary_metrics]
  · intro r
    refine ⟨?_, ?_, ?_, ?_⟩
    · rintro rfl
      exact ⟨rfl, rfl⟩
    · rintro g rfl hg0
      exact ⟨by rw [rawCase, if_pos hg0], by rw [summaryCase, if_pos hg0]⟩
    · rintro g rfl hg0
      exact ⟨by rw [rawCase, if_neg hg0], by rw [summaryCase, if_neg hg0]⟩
    · intro label q hmem
      rcases r with _ | g
      · rw [summaryCase] at hmem
        simp at hmem
      · by_cases hg : g.nrows = 0
        · rw [summaryCase, if_pos hg] at hmem
          simp at hmem
        · exact ⟨g, rfl, hg⟩

/-- Claim C7 (witness): the reporting decomposition discharged on the mock
client with a valid target identifier and no disease identifier. -/
theorem claim7_witness :
    ∃ r1 r2, ([(("target" : String), some mockTargetFrame),
        ("disease", (none : Option Frame))]) = [("target", r1), ("disease", r2)] ∧
      print_association_data
          [("target", some mockTargetFrame), ("disease", none)] =
        (OutLine.queryHeader "target" :: rawCase r1) ++
          (OutLine.queryHeader "disease" :: rawCase r2) ∧
      print_summary_metrics
          [("target", some mockTargetFrame), ("disease", none)] =
        (OutLine.summaryHeader "target" :: summaryCase r1) ++
          (OutLine.summaryHeader "disease" :: summaryCase r2) ∧
      (∀ r : Option Frame,
        (r = none → rawCase r = [OutLine.noFilter, OutLine.blank] ∧
          summaryCase r = [OutLine.noFilter]) ∧
        (∀ g : Frame, r = some g → g.nrows = 0 →
          rawCase r = [OutLine.noResults, OutLine.blank] ∧
          summaryCase r = [OutLine.noResults]) ∧
        (∀ g : Frame, r = some g → g.nrows ≠ 0 →
          rawCase r = [OutLine.frameDump g, OutLine.blank] ∧
          summaryCase r =
            [OutLine.stat "Minimum"
               (some (round3 (seriesMin g.score_overall))),
             OutLine.stat "Maximum"
               (some (round3 (seriesMax g.score_overall))),
             OutLine.stat "Mean"
               (some (round3 (seriesMean g.score_overall))),
             OutLine.stat "Standard deviation" (stdStat g.score_overall),
             OutLine.blank]) ∧
        (∀ (label : String) (q : Option ℚ),
          OutLine.stat label q ∈ summaryCase r →
          ∃ g : Frame, r = some g ∧ g.nrows ≠ 0)) :=
  claim7_theorem mockClient jitter2 (some "valid_target") none
    [("target", some mockTargetFrame), ("disease", none)] (by rfl)

/-- Claim C8: for a present, non-empty filter value, `query_rest_api`
performs up to 5 attempts in total. If every attempt raises, the error of
the fifth (last) attempt is re-raised, five API calls were issued, and four
sleeps occurred with delays 5, then multiplied by 1.2 and perturbed by the
next jitter draw after each further failure. If some attempt k (the first
four having failed) succeeds, its record list is returned and exactly k + 1
calls and k sleeps occurred. The jitter stream is arbitrary here, covering
in particular draws from the interval [1, 3]. -/
theorem claim8_theorem (client : OpenTargetsClient) (ft v : String)
    (jitter : ℕ → ℚ) (hv : v ≠ "") :
    (∀ err : ℕ → ApiError,
      (∀ i, i < 5 → client.filter_associations ft v i = Except.error (err i)) →
      query_rest_api client ft (some v) jitter =
        (Except.error (err 4), List.replicate 5 (ft, v),
         [5, 5 * 1.2 + jitter 0, (5 * 1.2 + jitter 0) * 1.2 + jitter 1,
          ((5 * 1.2 + jitter 0) * 1.2 + jitter 1) * 1.2 + jitter 2])) ∧
    (∀ (k : ℕ) (recs : List RawRecord), k < 5 →
      (∀ i, i < k → ∃ e, client.filter_associations ft v i = Except.error e) →
      client.filter_associations ft v k = Except.ok recs →
      (query_rest_api client ft (some v) jitter).1 = Except.ok (some recs) ∧
      (query_rest_api client ft (some v) jitter).2.1 =
        List.replicate (k + 1) (ft, v) ∧
      (query_rest_api client ft (some v) jitter).2.2.length = k) := by
  have hope : ∀ i e, client.filter_associations ft v i = Except.error e →
      queryBody client ft (some v) i = (Except.error e, [(ft, v)]) := by
    intro i e he
    simp [queryBody, hv, he, Except.map]
  have hopo : ∀ i recs, client.filter_associations ft v i = Except.ok recs →
      queryBody client ft (some v) i = (Except.ok (some recs), [(ft, v)]) := by
    intro i recs ho
    simp [queryBody, hv, ho, Except.map]
  constructor
  · intro err hall
    rw [query_rest_api]
    simp only [retryInternal, hope 0 (err 0) (hall 0 (by omega)),
      hope 1 (err 1) (hall 1 (by omega)), hope 2 (err 2) (hall 2 (by omega)),
      hope 3 (err 3) (hall 3 (by omega)), hope 4 (err 4) (hall 4 (by omega))]
    simp [List.replicate]
  · intro k recs hk hfail hok
    interval_cases k
    · rw [query_rest_api]
      simp only [retryInternal, hopo 0 recs hok]
      simp [List.replicate]
    · obtain ⟨e0, h0⟩ := hfail 0 (by omega)
      rw [query_rest_api]
      simp only [retryInternal, hope 0 e0 h0, hopo 1 recs hok]
      simp [List.replicate]
    · obtain ⟨e0, h0⟩ := hfail 0 (by omega)
      obtain ⟨e1, h1⟩ := hfail 1 (by omega)
      rw [query_rest_api]
      simp only [retryInternal, hope 0 e0 h0, hope 1 e1 h1, hopo 2 recs hok]
      simp [List.replicate]
    · obtain ⟨e0, h0⟩ := hfail 0 (by omega)
      obtain ⟨e1, h1⟩ := hfail 1 (by omega)
      obtain ⟨e2, h2⟩ := hfail 2 (by omega)
      rw [query_rest_api]
      simp only [retryInternal, hope 0 e0 h0, hope 1 e1 h1, hope 2 e2 h2,
        hopo 3 recs hok]
      simp [List.replicate]
    · obtain ⟨e0, h0⟩ := hfail 0 (by omega)
      obtain ⟨e1, h1⟩ := hfail 1 (by omega)
      obtain ⟨e2, h2⟩ := hfail 2 (by omega)
      obtain ⟨e3, h3⟩ := hfail 3 (by omega)
      rw [query_rest_api]
      simp only [retryInternal, hope 0 e0 h0, hope 1 e1 h1, hope 2 e2 h2,
        hope 3 e3 h3, hopo 4 recs hok]
      simp [List.replicate]

/-- Claim C8 (witness): the exhaustion branch discharged on the
always-failing client: the fifth attempt's error is re-raised after five
calls and four sleeps of 5, 8, 11.6 and 15.92 time units (jitter fixed
at 2). -/
theorem claim8_witness :
    query_rest_api failClient "target" (some "x") jitter2 =
      (Except.error (ApiError.network 4), List.replicate 5 ("target", "x"),
       [5, 5 * 1.2 + jitter2 0, (5 * 1.2 + jitter2 0) * 1.2 + jitter2 1,
        ((5 * 1.2 + jitter2 0) * 1.2 + jitter2 1) * 1.2 + jitter2 2]) :=
  (claim8_theorem failClient "target" "x" jitter2 (by decide)).1
    (fun i => ApiError.network i) (fun i _ => rfl)

/-- Claim C10: the dataframe built by `get_associations` coerces the two id
columns to strings and the score column to floats, elementwise and in row
order, whatever the value types carried by the raw records; in particular a
record carrying an integer target id and an integer score is stored with
the string "7" in the target column and the float 1.0 in the score column,
and the API-sanity assertion compares the coerced strings. -/
theorem claim10_theorem :
    (∀ (recs : List RawRecord) (f : Frame), buildFrame recs = some f →
      f.target_id = (recs.map fun a => coerceStr a.target_id) ∧
      f.disease_id = (recs.map fun a => coerceStr a.disease_id) ∧
      f.score_overall.map some =
        (recs.map fun a => coerceFloat a.score_overall)) ∧
    (get_associations intClient jitter2 (some "7") none).1 =
      Except.ok [("target", some ⟨["7"], ["d"], [1]⟩), ("disease", none)] := by
  refine ⟨buildFrame_eq_some, ?_⟩
  rfl

/-- Claim C10 (witness): the coercion equations discharged on the
integer-typed record. -/
theorem claim10_witness :
    (⟨["7"], ["d"], [1]⟩ : Frame).target_id =
      ([intRecord].map fun a => coerceStr a.target_id) ∧
    (⟨["7"], ["d"], [1]⟩ : Frame).disease_id =
      ([intRecord].map fun a => coerceStr a.disease_id) ∧
    (⟨["7"], ["d"], [1]⟩ : Frame).score_overall.map some =
      ([intRecord].map fun a => coerceFloat a.score_overall) :=
  claim10_theorem.1 [intRecord] ⟨["7"], ["d"], [1]⟩ (by rfl)

end OtQuery
